import Mathlib

/-!
Verification development for the roiextractors repository.

Shallow embedding of the parts of the source relevant to the frozen claims:
- `Hdf5ImagingExtractor.write_imaging` and `get_frames`
  (src/src/roiextractors/extractors/hdf5imagingextractor/hdf5imagingextractor.py)
- `NwbSegmentationExtractor` read path, accessors, and `write_nwb`
  (src/segmentationextractors/nwbextractor/nwbsegmentationextractor.py)
- `set_dynamic_table_property` (same file)
- `check_segmentations_equal` (src/src/roiextractors/testing.py)
- `VideoStructure` (modelled from the spec; the module
  roiextractors.extraction_tools is not part of src/, only its tests are)

Python machine-level behaviour is embedded explicitly: error outcomes are
values of an error type distinguishing raised exceptions from accidental
failures (NameError from an unbound local, TypeError from comparing a list
with an int), and file-system state is passed explicitly, with every
operation returning the (possibly unchanged) state next to its result.
-/

namespace RoiExtractors

/-! ## Python-level error model -/

/-- Error outcomes a call can produce, mirroring the Python exception classes
actually raised (or tripped) by the source. -/
inductive PyErr where
  | exception (msg : String)
  | assertionError (msg : String)
  | fileExistsError (msg : String)
  | valueError (msg : String)
  | typeError (msg : String)
  | nameError (msg : String)
  deriving DecidableEq, Repr

/-! ## Hdf5ImagingExtractor (hdf5imagingextractor.py)

The imaging data is embedded as a list of frames; the file system as a map
from paths to optional HDF5 contents. -/

/-- Contents of an HDF5 movie file as written by `write_imaging`: the `mov`
dataset and its `fr` (sampling frequency) attribute. -/
structure H5File where
  mov : List (List ℚ)
  fr : ℚ
  deriving DecidableEq, Repr

/-- Imaging extractor data used by `write_imaging`: its frames and sampling
frequency. -/
structure ImagingData where
  frames : List (List ℚ)
  samplingFrequency : ℚ
  deriving DecidableEq, Repr

/-- File-system state: maps a path to the file stored there, if any. -/
def FS : Type := String → Option H5File

/-- Store a file at a path. -/
def FS.update (fs : FS) (p : String) (f : H5File) : FS :=
  fun q => if q = p then some f else fs q

/-- Split a character list on the dot character, keeping empty segments. -/
def splitDots : List Char → List (List Char)
  | [] => [[]]
  | c :: cs =>
      let r := splitDots cs
      if c = '.' then [] :: r else (c :: r.headD []) :: r.tail

/-- Path suffix in the sense of pathlib: the final dotted extension, or the
empty string when the name has no dot. -/
def pathSuffix (p : String) : String :=
  let parts := splitDots p.toList
  if parts.length ≤ 1 then "" else "." ++ String.mk (parts.getLastD [])

/-- Embedding of `Hdf5ImagingExtractor.write_imaging` (lines 141-164): assert
the `.h5`/`.hdf5` suffix, then raise `FileExistsError` when the target exists
and `overwrite` is false, else (re)write the file with the movie dataset and
its `fr` attribute. The state is returned next to the result so that the
error branches visibly leave the file system unchanged. -/
def write_imaging (im : ImagingData) (fs : FS) (savePath : String)
    (overwrite : Bool) : Except PyErr Unit × FS :=
  if ¬ (pathSuffix savePath = ".h5" ∨ pathSuffix savePath = ".hdf5") then
    (Except.error (PyErr.assertionError "save_path file is not an .hdf5 or .h5 file"), fs)
  else if (fs savePath).isSome ∧ ¬ overwrite then
    (Except.error (PyErr.fileExistsError
      "The specified path exists! Use overwrite=True to overwrite it."), fs)
  else
    (Except.ok (), fs.update savePath ⟨im.frames, im.samplingFrequency⟩)

/-- Discriminator used to state that a failed call did not fail with the
already-exists error. -/
def isFileExistsErr : Except PyErr Unit → Bool
  | Except.error (PyErr.fileExistsError _) => true
  | _ => false

/-- Embedding of `np.min` over a nonempty integer list (junk value 0 on the
empty list, which `np.min` rejects at runtime). -/
def npMin : List ℕ → ℕ
  | [] => 0
  | x :: xs => xs.foldl Nat.min x

/-- Embedding of `np.max` over a nonempty integer list (junk value 0 on the
empty list). -/
def npMax : List ℕ → ℕ
  | [] => 0
  | x :: xs => xs.foldl Nat.max x

/-- Embedding of `Hdf5ImagingExtractor.get_frames` (lines 105-124) along the
frame axis: with a frame list, slice the contiguous range from the minimum
requested index up to `min(max(frame_idxs)+1, num_frames)`; with `None`,
return all frames. -/
def get_frames (video : List (List ℚ)) : Option (List ℕ) → List (List ℚ)
  | none => video
  | some idxs =>
      let sliceStart := npMin idxs
      let sliceStop := Nat.min (npMax idxs + 1) video.length
      ((video.drop sliceStart).take (sliceStop - sliceStart))

/-! ## NwbSegmentationExtractor accessors: ROI id resolution

The three-line pattern shared by `get_traces`, `get_roi_locations`,
`get_pixel_masks`, and `get_image_masks` (for example lines 247-254):
for each requested id, `np.where` finds its positions in `roi_idx`;
requests with no match are dropped; the first matching position is kept
for the rest, in request order. -/

/-- Embedding of `np.where(np.array(i) == self.roi_idx)[0]`: positions of
`roi_idx` holding the value `i`, in increasing order. -/
def matchIndices (roi_idx : List ℤ) (i : ℤ) : List ℕ :=
  (List.range roi_idx.length).filter (fun k => roi_idx.get? k = some i)

/-- Embedding of the shared resolution pattern: the first matching position
of each requested id that has one, in request order. -/
def resolveIds (roi_idx : List ℤ) (ids : List ℤ) : List ℕ :=
  (ids.map (matchIndices roi_idx)).filterMap List.head?

/-- Embedding of `NwbSegmentationExtractor.get_image_masks` (lines 247-254):
select the mask planes at the resolved positions (`None` selects every ROI).
A mask plane is a rows-by-columns grid of weights. -/
def get_image_masks (masks : List (List (List ℚ))) (roi_idx : List ℤ) :
    Option (List ℤ) → List (List (List ℚ))
  | none => masks
  | some ids => (resolveIds roi_idx ids).map (fun k => masks.getD k [])

/-- One row of the flat pixel-mask table: row and column coordinates, the
weight, and the owning ROI id stored in the fourth column. -/
def PixRow : Type := ℚ × ℚ × ℚ × ℤ

instance : DecidableEq PixRow := by
  unfold PixRow
  infer_instance

/-- Rows of the pixel-mask table whose fourth (id) column equals `key`,
mirroring `self.pixel_masks[self.pixel_masks[:, 3] == roiid, :]`. -/
def selectPixelRows (pixel_masks : List PixRow) (key : ℤ) : List PixRow :=
  pixel_masks.filter (fun r => r.2.2.2 = key)

/-- Embedding of `NwbSegmentationExtractor.get_pixel_masks` (lines 234-245).
With `ROI_ids=None` the loop runs over the ids themselves; with a request
list it runs over the *resolved positions*, which are then compared against
the id column of the pixel-mask table. -/
def get_pixel_masks (pixel_masks : List PixRow) (roi_idx : List ℤ) :
    Option (List ℤ) → List PixRow
  | none => (roi_idx.map (selectPixelRows pixel_masks)).flatten
  | some ids =>
      (((resolveIds roi_idx ids).map (fun k => (k : ℤ))).map
        (selectPixelRows pixel_masks)).flatten

/-! ## NwbSegmentationExtractor accessors: ROI locations (roi_locs) -/

/-- Embedding of `np.amax` over a mask plane (junk value 0 on an empty
plane, which `np.amax` rejects at runtime). -/
def amax (m : List (List ℚ)) : ℚ :=
  match m.flatten with
  | [] => 0
  | x :: xs => xs.foldl max x

/-- Embedding of `np.where(plane == v)` on a two-dimensional plane: the
coordinates of the entries equal to `v`, in row-major order. -/
def whereEq (m : List (List ℚ)) (v : ℚ) : List (ℕ × ℕ) :=
  (m.enum.map (fun rc =>
    rc.2.enum.filterMap (fun cx =>
      if cx.2 = v then some (rc.1, cx.1) else none))).flatten

/-- Embedding of `int(np.median(l))` on a list of coordinates: the median of
the sorted list (the mean of the two middle entries for even length),
truncated to an integer by the assignment into the integer-dtype location
array. -/
def medianTrunc (l : List ℕ) : ℕ :=
  let s := List.insertionSort (· ≤ ·) l
  (s.getD ((s.length - 1) / 2) 0 + s.getD (s.length / 2) 0) / 2

/-- Exact rational median of a list of coordinates, as `np.median` computes
it before the integer truncation. -/
def medianRat (l : List ℕ) : ℚ :=
  let s := List.insertionSort (· ≤ ·) l
  ((s.getD ((s.length - 1) / 2) 0 : ℚ) + (s.getD (s.length / 2) 0 : ℚ)) / 2

/-- Embedding of one column of the `roi_locs` property (lines 181-189): the
truncated medians of the row and column coordinates of the pixels attaining
the maximum weight of the plane. -/
def roi_loc (m : List (List ℚ)) : ℕ × ℕ :=
  let w := whereEq m (amax m)
  (medianTrunc (w.map Prod.fst), medianTrunc (w.map Prod.snd))

/-- Embedding of the `roi_locs` property over all ROI mask planes. -/
def roi_locs (masks : List (List (List ℚ))) : List (ℕ × ℕ) :=
  masks.map roi_loc

/-! ## Dynamic table property update (set_dynamic_table_property, lines 24-61)

The dynamic table is embedded as its id column plus named value columns;
the `index=False` path of the function is modelled (the claim concerns it).
The table state is returned next to the result, so the error branches
visibly leave the table unchanged. -/

/-- A dynamic table: the id column and the named value columns. -/
structure DynTable where
  ids : List ℤ
  cols : List (String × List ℚ)
  deriving DecidableEq, Repr

/-- Column lookup by name, mirroring `property_name in dynamic_table`
followed by `dynamic_table[property_name]`. -/
def lookupCol : List (String × List ℚ) → String → Option (List ℚ)
  | [], _ => none
  | c :: cs, name => if c.1 = name then some c.2 else lookupCol cs name

/-- Column of a table by name. -/
def getCol (t : DynTable) (name : String) : Option (List ℚ) :=
  lookupCol t.cols name

/-- Embedding of Python `list.index`: position of the first occurrence
(junk past the end when absent, which `list.index` rejects at runtime). -/
def pyIndex : List ℤ → ℤ → ℕ
  | [], _ => 0
  | y :: ys, x => if y = x then 0 else pyIndex ys x + 1

/-- Embedding of the update loop
`for (row_id, value) in zip(row_ids, values): data[ids.index(row_id)] = value`. -/
def applyUpdates (ids : List ℤ) (data : List ℚ) (upds : List (ℤ × ℚ)) : List ℚ :=
  upds.foldl (fun d p => d.set (pyIndex ids p.1) p.2) data

/-- Replace the data of the named column, keeping every other column. -/
def setColData (cols : List (String × List ℚ)) (name : String)
    (newData : List ℚ) : List (String × List ℚ) :=
  cols.map (fun c => if c.1 = name then (c.1, newData) else c)

/-- Embedding of `set_dynamic_table_property` (lines 24-61, `index=False`
path): check that all row ids exist (else `ValueError`), check the lengths
match (else `ValueError`), then overwrite the supplied rows of the existing
column, or create a new column pre-filled with the default value and
overwrite the supplied rows. -/
def set_dynamic_table_property (t : DynTable) (row_ids : List ℤ)
    (property_name : String) (values : List ℚ) (default_value : ℚ) :
    Except PyErr Unit × DynTable :=
  if ¬ ∀ i ∈ row_ids, i ∈ t.ids then
    (Except.error (PyErr.valueError
      "ids contains values outside the range of existing ids"), t)
  else if row_ids.length ≠ values.length then
    (Except.error (PyErr.valueError
      "ids and values should be lists of same size"), t)
  else
    match lookupCol t.cols property_name with
    | some col =>
        (Except.ok (), ⟨t.ids, setColData t.cols property_name
          (applyUpdates t.ids col (row_ids.zip values))⟩)
    | none =>
        (Except.ok (), ⟨t.ids, t.cols ++ [(property_name,
          applyUpdates t.ids (List.replicate t.ids.length default_value)
            (row_ids.zip values))]⟩)

/-! ## NwbSegmentationExtractor accessors: accepted and rejected lists -/

/-- State relevant to the `accepted_list`/`rejected_list` properties
(lines 170-179): the number of ROIs and the optional stored accepted list
(`None` meaning no classification was set). -/
structure AcceptedState where
  no_rois : ℕ
  stored_accepted : Option (List ℕ)
  deriving DecidableEq, Repr

/-- Embedding of the `accepted_list` property: default to all ROI indices
when no accepted classification is stored. -/
def accepted_list (s : AcceptedState) : List ℕ :=
  match s.stored_accepted with
  | none => List.range s.no_rois
  | some l => l

/-- Embedding of the `rejected_list` property: the indices below `no_rois`
not in the accepted list. -/
def rejected_list (s : AcceptedState) : List ℕ :=
  (List.range s.no_rois).filter (fun a => a ∉ accepted_list s)

/-! ## write_nwb merge steps against an existing container (lines 352-430)

The writer computes the list of all child names once at the start
(`_nwbchildren_name`, lines 355-356) and then, per structural entity,
searches that list for the requested name. The container state is returned
next to the result; entity creation is modelled as appending the name to
the per-type list. -/

/-- Writer-side container state: the child-name directory fetched once at
the start of the write, plus the per-type entity name lists. -/
structure WState where
  childNames : List String
  devices : List String
  imagingPlanes : List String
  acquisitions : List String
  processingModules : List String
  deriving DecidableEq, Repr

/-- Embedding of `[i for i, e in enumerate(_nwbchildren_name) if e == nm]`. -/
def nameMatches (childNames : List String) (nm : String) : List ℕ :=
  (List.range childNames.length).filter (fun i => childNames.getD i "" = nm)

/-- Embedding of the device step (lines 361-367). The source guards the
multi-match case with `elif len(_device_exist > 1)`, which compares the
match list itself against the int 1 — in Python 3 that comparison raises
`TypeError` — so every nonzero match count fails before reuse can happen. -/
def deviceStep (st : WState) (device_name : String) :
    Except PyErr Unit × WState :=
  if (nameMatches st.childNames device_name).isEmpty then
    (Except.ok (), { st with devices := st.devices ++ [device_name] })
  else
    (Except.error (PyErr.typeError
      "gt not supported between instances of list and int"), st)

/-- Embedding of the imaging-plane step (lines 388-403): zero matches
creates the plane, exactly one reuses the existing child, several raise
before any mutation. -/
def imagingPlaneStep (st : WState) (nm : String) :
    Except PyErr Unit × WState :=
  if (nameMatches st.childNames nm).isEmpty then
    (Except.ok (), { st with imagingPlanes := st.imagingPlanes ++ [nm] })
  else if (nameMatches st.childNames nm).length = 1 then
    (Except.ok (), st)
  else
    (Except.error (PyErr.exception
      "Multiple Imaging Planes exist, provide name of one"), st)

/-- Embedding of the image-series (acquisition) step (lines 405-418). -/
def imageSeriesStep (st : WState) (nm : String) :
    Except PyErr Unit × WState :=
  if (nameMatches st.childNames nm).isEmpty then
    (Except.ok (), { st with acquisitions := st.acquisitions ++ [nm] })
  else if (nameMatches st.childNames nm).length = 1 then
    (Except.ok (), st)
  else
    (Except.error (PyErr.exception
      "Multiple Imaging Series exist, provide name of one"), st)

/-- Embedding of the processing-module step (lines 420-430). -/
def processingModuleStep (st : WState) (nm : String) :
    Except PyErr Unit × WState :=
  if (nameMatches st.childNames nm).isEmpty then
    (Except.ok (), { st with processingModules := st.processingModules ++ [nm] })
  else if (nameMatches st.childNames nm).length = 1 then
    (Except.ok (), st)
  else
    (Except.error (PyErr.exception
      "Multiple Ophys modules exist, provide name of one"), st)

/-- Embedding of the optical-channel step (lines 369-386): zero matches
builds fresh channels for every name; exactly one match builds channels for
the names past the first and appends the existing child; several raise.
The produced channel list is returned by name. -/
def opticalChannelStep (st : WState) (optical_channel_name : String)
    (optical_channel_names : List String) :
    Except PyErr (List String) × WState :=
  if (nameMatches st.childNames optical_channel_name).isEmpty then
    (Except.ok optical_channel_names, st)
  else if (nameMatches st.childNames optical_channel_name).length = 1 then
    (Except.ok (optical_channel_names.drop 1 ++ [optical_channel_name]), st)
  else
    (Except.error (PyErr.exception
      "Multiple Optical Channels exist, provide name of one"), st)

/-! ## NwbSegmentationExtractor read path (lines 85-156)

The reader scans `nwbfile.all_children()` by name and by type. A child is
embedded by its name, its type name, and (for imaging planes) its optical
channel names. -/

/-- One child node of the container tree. -/
structure NwbChild where
  name : String
  type : String
  opticalChannelNames : List String
  deriving DecidableEq, Repr

/-- Reader-side view of a container: the number of processing modules and
the full children list. -/
structure NwbContainer where
  processingCount : ℕ
  children : List NwbChild
  deriving DecidableEq, Repr

/-- Embedding of the structural lookups of `NwbSegmentationExtractor.__init__`
in source order: no processing module raises; no child named
`PlaneSegmentation` prints a warning and then trips `NameError` when the
unbound local `ps` is dereferenced on line 103; no child of type
`RoiResponseSeries` raises; no child of type `ImagingPlane` degrades to
`channel_names = None`, otherwise the optical channel name lists are
collected. -/
def readLookups (c : NwbContainer) : Except PyErr (Option (List (List String))) :=
  if c.processingCount = 0 then
    Except.error (PyErr.exception "no processing module found")
  else if ¬ c.children.any (fun ch => ch.name = "PlaneSegmentation") then
    Except.error (PyErr.nameError "name ps is not defined")
  else if ¬ c.children.any (fun ch => ch.type = "RoiResponseSeries") then
    Except.error (PyErr.exception "no ROI response series found")
  else if (c.children.filter (fun ch => ch.type = "ImagingPlane")).isEmpty then
    Except.ok none
  else
    Except.ok (some ((c.children.filter (fun ch => ch.type = "ImagingPlane")).map
      (fun ch => ch.opticalChannelNames)))

/-- Discriminator for an intentionally raised error (a `raise` statement in
the source), as opposed to an accidental `NameError`/`TypeError`. -/
def isRaisedError : Except PyErr (Option (List (List String))) → Bool
  | Except.error (PyErr.exception _) => true
  | _ => false

/-! ## Trace round trip through write_nwb and the reader (C1)

The fields of a segmentation extractor involved in the trace round trip,
and the container fields `write_nwb` produces for them on a fresh file:
the neuron response series is written as `roi_response.T` (line 564) and
the background series is also written as `roi_response.T` (line 575); the
reader assigns the stored series data to `roi_response` without
transposing (line 120) and derives `get_num_frames` from its second axis
(lines 213-214). -/

/-- Trace-relevant state of a segmentation extractor. -/
structure SegData where
  roi_idx : List ℤ
  roi_response : List (List ℚ)
  roi_response_bk : List (List ℚ)
  samp_freq : ℚ
  deriving DecidableEq, Repr

/-- Trace-relevant contents of the container written by `write_nwb` into a
fresh file. -/
structure NwbTraceStore where
  roiTableIds : List ℤ
  neuronData : List (List ℚ)
  backgroundData : List (List ℚ)
  rate : ℚ
  deriving DecidableEq, Repr

/-- Embedding of the fresh-file write path of `write_nwb` restricted to the
trace-relevant fields: ROI ids into the table, transposed neuron traces
into the neuron series, and (per line 575) the transposed *neuron* traces
into the background series as well. -/
def write_nwb_fresh (ex : SegData) : NwbTraceStore :=
  { roiTableIds := ex.roi_idx
  , neuronData := ex.roi_response.transpose
  , backgroundData := ex.roi_response.transpose
  , rate := ex.samp_freq }

/-- Embedding of the reader restricted to the trace-relevant fields: the
first response series data is assigned to `roi_response` untransposed, the
second to `roi_response_bk`, and the rate to the sampling frequency. -/
def read_back (st : NwbTraceStore) : SegData :=
  { roi_idx := st.roiTableIds
  , roi_response := st.neuronData
  , roi_response_bk := st.backgroundData
  , samp_freq := st.rate }

/-- Embedding of `get_num_frames` (lines 213-214): the second axis of
`roi_response`. -/
def get_num_framesS (ex : SegData) : ℕ := (ex.roi_response.headD []).length

/-- Embedding of `get_num_rois`: the length of the ROI id list. -/
def get_num_roisS (ex : SegData) : ℕ := ex.roi_idx.length

/-- Embedding of the discrete comparisons of `check_segmentations_equal`
(testing.py lines 47-73) expressible over the trace-relevant state: ROI
count, frame count, sampling frequency, ROI ids, and traces. -/
def checkSegmentationsEqualCore (a b : SegData) : Bool :=
  (get_num_roisS a == get_num_roisS b)
  && (get_num_framesS a == get_num_framesS b)
  && (a.samp_freq == b.samp_freq)
  && (a.roi_idx == b.roi_idx)
  && (a.roi_response == b.roi_response)

/-! ## VideoStructure (C9)

Modelled from the spec: the class `VideoStructure` lives in
`roiextractors.extraction_tools`, which is not among the source files; only
its tests (src/tests/test_internals/test_extraction_tools.py) are. The
model follows spec sections 3 and 4.1 and the expected tuples of the tests. -/

/-- Modelled from the spec: an immutable video-axis description; `rows`,
`columns`, `num_channels` with the four axis positions. -/
structure VideoStructure where
  rows : ℕ
  columns : ℕ
  num_channels : ℕ
  rows_axis : ℕ
  columns_axis : ℕ
  num_channels_axis : ℕ
  frame_axis : ℕ
  deriving DecidableEq, Repr

/-- Modelled from the spec: the four axis indices must form a permutation of
0 to 3 — each a unique value between 0 and 3 inclusive. -/
def validAxes (ra ca na fa : ℕ) : Prop :=
  [ra, ca, na, fa].Nodup ∧ ∀ a ∈ [ra, ca, na, fa], a < 4

instance validAxes.decidable (ra ca na fa : ℕ) :
    Decidable (validAxes ra ca na fa) := by
  unfold validAxes
  infer_instance

/-- Modelled from the spec: the `VideoStructure` constructor fails with a
`ConfigurationError` (a `ValueError` in the tests) identifying the bad axis
tuple whenever the axes are not a permutation of 0 to 3. -/
def mkVideoStructure (rows columns num_channels ra ca na fa : ℕ) :
    Except PyErr VideoStructure :=
  if validAxes ra ca na fa then
    Except.ok ⟨rows, columns, num_channels, ra, ca, na, fa⟩
  else
    Except.error (PyErr.valueError ("Invalid structure: "
      ++ toString [ra, ca, na, fa]
      ++ " each property axis should be unique value between 0 and 3 inclusive"))

/-- Modelled from the spec: `build_video_shape(n)` inserts `num_frames` at
`frame_axis` and rows, columns, channels at their axis positions. -/
def build_video_shape (s : VideoStructure) (n : ℕ) : List ℕ :=
  (List.range 4).map (fun i =>
    if i = s.frame_axis then n
    else if i = s.rows_axis then s.rows
    else if i = s.columns_axis then s.columns
    else s.num_channels)

/-- Modelled from the spec: `number_of_pixels_per_frame` is the product of
rows, columns, and channels. -/
def number_of_pixels_per_frame (s : VideoStructure) : ℕ :=
  s.rows * s.columns * s.num_channels

end RoiExtractors

namespace RoiExtractors

/-! ## Claim theorems for C2, C5, C10 -/

/-- C2 (counterexample): calling `write_imaging` with `overwrite=False` on the
pre-existing target `movie.txt` fails with the suffix `AssertionError`, not
with the already-exists `FileExistsError`, so the claim as stated (every
existing target fails with an already-exists error) is false. -/
theorem C2_counterexample :
    (write_imaging ⟨[[1]], 2⟩
        (fun p => if p = "movie.txt" then some ⟨[[0]], 1⟩ else none)
        "movie.txt" false).1
      = Except.error (PyErr.assertionError "save_path file is not an .hdf5 or .h5 file")
    ∧ isFileExistsErr (write_imaging ⟨[[1]], 2⟩
        (fun p => if p = "movie.txt" then some ⟨[[0]], 1⟩ else none)
        "movie.txt" false).1 = false := by
  constructor
  · rfl
  · rfl

/-- C2 (amended): for every target path with a valid `.h5`/`.hdf5` suffix that
already exists, `write_imaging` with `overwrite=False` fails with
`FileExistsError` and performs no write at all: the whole file system, and in
particular the pre-existing content, is unchanged. -/
theorem C2_write_imaging_blocked_on_existing (im : ImagingData) (fs : FS)
    (p : String) (c : H5File) (hends : pathSuffix p = ".h5" ∨ pathSuffix p = ".hdf5")
    (hex : fs p = some c) :
    write_imaging im fs p false
      = (Except.error (PyErr.fileExistsError
          "The specified path exists! Use overwrite=True to overwrite it."), fs)
    ∧ (write_imaging im fs p false).2 p = some c := by
  have h1 : ¬ ¬ (pathSuffix p = ".h5" ∨ pathSuffix p = ".hdf5") := not_not_intro hends
  have h2 : (fs p).isSome ∧ ¬ false = true := by
    refine ⟨?_, by simp⟩
    rw [hex]; rfl
  constructor
  · unfold write_imaging
    rw [if_neg h1, if_pos (by simpa using h2)]
  · unfold write_imaging
    rw [if_neg h1, if_pos (by simpa using h2)]
    exact hex

/-- C2 (witness): instantiating the amended theorem at a concrete existing
`.h5` target. -/
theorem C2_witness :
    (write_imaging ⟨[[1]], 2⟩
        (fun p => if p = "movie.h5" then some ⟨[[0]], 1⟩ else none)
        "movie.h5" false).2 "movie.h5" = some ⟨[[0]], 1⟩ :=
  (C2_write_imaging_blocked_on_existing ⟨[[1]], 2⟩
    (fun p => if p = "movie.h5" then some ⟨[[0]], 1⟩ else none)
    "movie.h5" ⟨[[0]], 1⟩ (Or.inl (by decide)) (by rfl)).2

/-- C5: the accepted and rejected lists partition the index space
`range(num_rois)` — no overlap, no gaps, both within range — whenever the
stored accepted list (if any) is a duplicate-free subset of the index range;
and when no accepted classification is stored, the accepted list defaults to
all of `range(num_rois)` and the rejected list is empty. -/
theorem C5_accepted_rejected_partition (n : ℕ) (al : Option (List ℕ))
    (hgood : ∀ l, al = some l → l.Nodup ∧ ∀ x ∈ l, x < n) :
    (∀ i, i < n → (i ∈ accepted_list ⟨n, al⟩ ∨ i ∈ rejected_list ⟨n, al⟩))
    ∧ (∀ i, i ∈ accepted_list ⟨n, al⟩ → i ∉ rejected_list ⟨n, al⟩)
    ∧ (∀ i, i ∈ accepted_list ⟨n, al⟩ → i < n)
    ∧ (∀ i, i ∈ rejected_list ⟨n, al⟩ → i < n)
    ∧ (al = none → accepted_list ⟨n, al⟩ = List.range n ∧ rejected_list ⟨n, al⟩ = []) := by
  refine ⟨?_, ?_, ?_, ?_, ?_⟩
  · intro i hi
    by_cases hmem : i ∈ accepted_list ⟨n, al⟩
    · exact Or.inl hmem
    · refine Or.inr ?_
      unfold rejected_list
      simp only [List.mem_filter, List.mem_range, decide_eq_true_eq]
      exact ⟨hi, by simpa using hmem⟩
  · intro i hacc
    unfold rejected_list
    simp only [List.mem_filter, List.mem_range, decide_eq_true_eq]
    intro hpair
    have hno : i ∉ accepted_list ⟨n, al⟩ := by simpa using hpair.2
    exact hno hacc
  · intro i hacc
    cases hal : al with
    | none =>
        unfold accepted_list at hacc
        rw [hal] at hacc
        simpa using hacc
    | some l =>
        unfold accepted_list at hacc
        rw [hal] at hacc
        exact (hgood l hal).2 i hacc
  · intro i hrej
    unfold rejected_list at hrej
    simp only [List.mem_filter, List.mem_range, decide_eq_true_eq] at hrej
    exact hrej.1
  · intro hal
    subst hal
    refine ⟨rfl, ?_⟩
    unfold rejected_list accepted_list
    simp

/-- C5 (witness): with 20 ROIs and stored accepted list `[4, 6, 12, 18]`,
index 5 is covered by the accepted/rejected partition (it lands in the
rejected list). -/
theorem C5_witness :
    5 ∈ accepted_list ⟨20, some [4, 6, 12, 18]⟩
    ∨ 5 ∈ rejected_list ⟨20, some [4, 6, 12, 18]⟩ := by
  have h := C5_accepted_rejected_partition 20 (some [4, 6, 12, 18])
    (by intro l hl; cases hl; decide)
  exact h.1 5 (by decide)

/-- C10: for every nonempty requested frame list, `get_frames` returns the
full contiguous block from `min(frame_idxs)` up to
`min(max(frame_idxs)+1, num_frames)`: its length is that span, and its `k`-th
element is frame `min(frame_idxs) + k` of the video; with `frame_idxs=None`
all frames are returned. -/
theorem C10_get_frames_contiguous_span (video : List (List ℚ)) (idxs : List ℕ)
    (hne : idxs ≠ []) :
    (get_frames video (some idxs)).length
        = Nat.min (npMax idxs + 1) video.length - npMin idxs
    ∧ (∀ k : ℕ, (get_frames video (some idxs)).get? k
        = if npMin idxs + k < Nat.min (npMax idxs + 1) video.length
          then video.get? (npMin idxs + k) else none)
    ∧ get_frames video none = video := by
  have hble : Nat.min (npMax idxs + 1) video.length ≤ video.length :=
    Nat.min_le_right _ _
  refine ⟨?_, ?_, rfl⟩
  · show ((video.drop (npMin idxs)).take
        (Nat.min (npMax idxs + 1) video.length - npMin idxs)).length = _
    rw [List.length_take, List.length_drop]
    omega
  · intro k
    show ((video.drop (npMin idxs)).take
        (Nat.min (npMax idxs + 1) video.length - npMin idxs)).get? k = _
    by_cases hk : npMin idxs + k < Nat.min (npMax idxs + 1) video.length
    · rw [if_pos hk, List.get?_take (by omega), List.get?_drop]
    · rw [if_neg hk]
      apply List.get?_eq_none.2
      rw [List.length_take, List.length_drop]
      omega

/-- C10 (witness): requesting frames `[1, 3]` from a 5-frame video returns
the 3-frame contiguous block `[1, 4)`, including the unrequested frame 2. -/
theorem C10_witness :
    (get_frames [[0], [1], [2], [3], [4]] (some [1, 3])).length
      = Nat.min (npMax [1, 3] + 1) 5 - npMin [1, 3] :=
  (C10_get_frames_contiguous_span [[0], [1], [2], [3], [4]] [1, 3]
    (by decide)).1

/-! ## Helper lemmas for the dynamic table -/

/-- The first-occurrence index returned by `pyIndex` points at the searched
value whenever the value is present. -/
theorem pyIndex_get? (ids : List ℤ) (x : ℤ) (hx : x ∈ ids) :
    ids.get? (pyIndex ids x) = some x := by
  induction ids with
  | nil => cases hx
  | cons y ys ih =>
      by_cases hy : y = x
      · simp [pyIndex, hy]
      · have hmem : x ∈ ys := by
          rcases List.mem_cons.1 hx with h | h
          · exact absurd h.symm hy
          · exact h
        simp only [pyIndex, if_neg hy]
        simpa using ih hmem

/-- Positions not hit by any update keep their value through the update
loop. -/
theorem applyUpdates_get?_untouched (ids : List ℤ) (upds : List (ℤ × ℚ))
    (j : ℕ) (hmiss : ∀ p ∈ upds, pyIndex ids p.1 ≠ j) :
    ∀ d : List ℚ, (applyUpdates ids d upds).get? j = d.get? j := by
  induction upds with
  | nil => intro d; rfl
  | cons p ps ih =>
      intro d
      have hp : pyIndex ids p.1 ≠ j := hmiss p (List.mem_cons_self _ _)
      have hps : ∀ q ∈ ps, pyIndex ids q.1 ≠ j :=
        fun q hq => hmiss q (List.mem_cons_of_mem _ hq)
      show (applyUpdates ids (d.set (pyIndex ids p.1) p.2) ps).get? j = d.get? j
      rw [ih hps, List.get?_set_ne _ _ hp]

/-- Replacing the data of a present column is visible through lookup. -/
theorem lookupCol_setColData (cols : List (String × List ℚ)) (name : String)
    (nd : List ℚ) (hsome : (lookupCol cols name).isSome) :
    lookupCol (setColData cols name nd) name = some nd := by
  induction cols with
  | nil => simp [lookupCol] at hsome
  | cons c cs ih =>
      by_cases hc : c.1 = name
      · simp [setColData, lookupCol, hc]
      · simp only [lookupCol, if_neg hc] at hsome
        simp only [setColData, List.map_cons, if_neg hc, lookupCol]
        exact ih hsome

/-- Appending a fresh column to a table lacking it is visible through
lookup. -/
theorem lookupCol_append (cols : List (String × List ℚ)) (name : String)
    (d : List ℚ) (hnone : lookupCol cols name = none) :
    lookupCol (cols ++ [(name, d)]) name = some d := by
  induction cols with
  | nil => simp [lookupCol]
  | cons c cs ih =>
      by_cases hc : c.1 = name
      · simp [lookupCol, hc] at hnone
      · simp only [lookupCol, if_neg hc] at hnone
        simp only [List.cons_append, lookupCol, if_neg hc]
        exact ih hnone

/-- Element `j` of a long-enough replicated list. -/
theorem get?_replicate_of_lt (a : ℚ) (n j : ℕ) (h : j < n) :
    (List.replicate n a).get? j = some a := by
  induction n generalizing j with
  | zero => omega
  | succ k ih =>
      cases j with
      | zero => rfl
      | succ j2 =>
          show (List.replicate k a).get? j2 = some a
          exact ih j2 (by omega)

/-! ## Helper lemmas for the ROI location accessor -/

/-- Floor of the rational mean of two naturals is their floor-divided sum. -/
theorem floor_add_div_two (a b : ℕ) :
    Nat.floor (((a : ℚ) + (b : ℚ)) / 2) = (a + b) / 2 := by
  rw [show ((a : ℚ) + (b : ℚ)) = ((a + b : ℕ) : ℚ) by push_cast; ring,
    show ((2 : ℚ)) = ((2 : ℕ) : ℚ) by norm_num,
    Nat.floor_div_nat, Nat.floor_natCast]

/-- The truncated median is the floor of the exact rational median. -/
theorem medianTrunc_eq_floor (l : List ℕ) :
    medianTrunc l = Nat.floor (medianRat l) := by
  simp only [medianTrunc, medianRat]
  exact (floor_add_div_two _ _).symm

/-- Folding `max` over a list yields a member of the seed-extended list. -/
theorem foldl_max_mem (xs : List ℚ) (x : ℚ) : xs.foldl max x ∈ x :: xs := by
  induction xs generalizing x with
  | nil => simp
  | cons y ys ih =>
      show ys.foldl max (max x y) ∈ x :: y :: ys
      rcases List.mem_cons.1 (ih (max x y)) with h1 | h1
      · rcases max_choice x y with hc | hc
        · rw [h1, hc]; exact List.mem_cons_self _ _
        · rw [h1, hc]; exact List.mem_cons_of_mem _ (List.mem_cons_self _ _)
      · exact List.mem_cons_of_mem _ (List.mem_cons_of_mem _ h1)

/-- Evaluation of `amax` on a plane with a nonempty flattening. -/
theorem amax_eq (m : List (List ℚ)) (x : ℚ) (xs : List ℚ)
    (hf : m.flatten = x :: xs) : amax m = xs.foldl max x := by
  unfold amax
  rw [hf]

/-- The maximum weight of a nonempty plane is attained by some entry. -/
theorem amax_mem (m : List (List ℚ)) (hne : m.flatten ≠ []) :
    amax m ∈ m.flatten := by
  cases hf : m.flatten with
  | nil => exact absurd hf hne
  | cons x xs =>
      rw [amax_eq m x xs hf]
      exact foldl_max_mem xs x

/-- Membership in `whereEq`: exactly the coordinates whose entry equals the
searched value. -/
theorem mem_whereEq (m : List (List ℚ)) (v : ℚ) (r c : ℕ) :
    (r, c) ∈ whereEq m v
      ↔ ∃ row, m.get? r = some row ∧ row.get? c = some v := by
  unfold whereEq
  constructor
  · intro hin
    rcases List.mem_flatten.1 hin with ⟨lsub, hsub, hmem⟩
    rcases List.mem_map.1 hsub with ⟨⟨i, row⟩, hrow, rfl⟩
    rcases List.mem_filterMap.1 hmem with ⟨⟨j, xval⟩, hj, hg⟩
    by_cases hv : xval = v
    · rw [if_pos hv] at hg
      have hir : i = r ∧ j = c := by
        have := Option.some.inj hg
        exact ⟨congrArg Prod.fst this, congrArg Prod.snd this⟩
      refine ⟨row, ?_, ?_⟩
      · rw [← hir.1, List.get?_eq_getElem?]
        exact List.mk_mem_enum_iff_getElem?.1 hrow
      · rw [← hir.2, List.get?_eq_getElem?, ← hv]
        exact List.mk_mem_enum_iff_getElem?.1 hj
    · rw [if_neg hv] at hg
      exact absurd hg (Option.noConfusion)
  · rintro ⟨row, hr, hc⟩
    refine List.mem_flatten.2 ⟨_, List.mem_map.2 ⟨(r, row), ?_, rfl⟩, ?_⟩
    · exact List.mk_mem_enum_iff_getElem?.2 (by rw [← List.get?_eq_getElem?]; exact hr)
    · refine List.mem_filterMap.2 ⟨(c, v), ?_, by simp⟩
      exact List.mk_mem_enum_iff_getElem?.2 (by rw [← List.get?_eq_getElem?]; exact hc)

/-! ## Claim theorems for C6, C7 -/

/-- C6: evaluation at the failing input showing the positional/id conflation
of `get_pixel_masks`. ROI ids are `[10, 20]` and the pixel table has one row
per id. Requesting `[99, 20]`: the unknown id 99 is silently dropped and no
error is raised by either accessor, and `get_image_masks` covers exactly the
existing requested id 20 — but `get_pixel_masks` filters the id column by
the resolved position 1 rather than the id 20, returning no rows even though
the table holds a row for id 20. -/
theorem C6_pixel_mask_positional_filter :
    get_pixel_masks [(0, 0, 1, 10), (1, 1, 1, 20)] [10, 20] (some [99, 20]) = []
    ∧ selectPixelRows [(0, 0, 1, 10), (1, 1, 1, 20)] 20 = [(1, 1, 1, 20)]
    ∧ get_image_masks [[[1]], [[2]]] [10, 20] (some [99, 20]) = [[[2]]] := by
  refine ⟨?_, ?_, ?_⟩ <;> rfl

/-- C7 (counterexample): on the all-ones 2-by-2 mask every pixel attains the
maximum, the tied row coordinates are `[0, 0, 1, 1]` with exact median `1/2`,
but the returned row location is the integer 0 — the claim that the result
is the median of the tied coordinates fails when the median is fractional. -/
theorem C7_counterexample :
    ((roi_loc [[1, 1], [1, 1]]).1 : ℚ)
      ≠ medianRat ((whereEq [[1, 1], [1, 1]]
          (amax [[1, 1], [1, 1]])).map Prod.fst) := by
  have h1 : (roi_loc [[1, 1], [1, 1]]).1 = 0 := by rfl
  have hw : (whereEq [[1, 1], [1, 1]] (amax [[1, 1], [1, 1]])).map Prod.fst
      = [0, 0, 1, 1] := by rfl
  have hmr : medianRat [0, 0, 1, 1] = 1 / 2 := by
    simp only [medianRat]
    rw [show List.insertionSort (fun a b => a ≤ b) [0, 0, 1, 1] = [0, 0, 1, 1]
      from rfl]
    norm_num [List.getD]
  rw [h1, hw, hmr]
  norm_num

/-- C7 (amended): for every nonempty mask plane, `roi_loc` returns the pair
of medians of the row and column coordinates taken over exactly the set of
pixels attaining the maximum mask weight, each truncated to an integer
(floor) by the integer dtype of the location array; that set is nonempty and
is characterized exactly by attaining the maximum. -/
theorem C7_roi_locations_median (m : List (List ℚ)) (hne : m.flatten ≠ []) :
    ((roi_loc m).1 = Nat.floor (medianRat ((whereEq m (amax m)).map Prod.fst))
      ∧ (roi_loc m).2 = Nat.floor (medianRat ((whereEq m (amax m)).map Prod.snd)))
    ∧ (∀ r c, (r, c) ∈ whereEq m (amax m)
        ↔ ∃ row, m.get? r = some row ∧ row.get? c = some (amax m))
    ∧ whereEq m (amax m) ≠ [] := by
  refine ⟨⟨medianTrunc_eq_floor _, medianTrunc_eq_floor _⟩,
    fun r c => mem_whereEq m (amax m) r c, ?_⟩
  have hmem := amax_mem m hne
  rcases List.mem_flatten.1 hmem with ⟨row, hrow, hv⟩
  rcases List.mem_iff_get?.1 hrow with ⟨r, hr⟩
  rcases List.mem_iff_get?.1 hv with ⟨c, hc⟩
  intro hempty
  have hin := (mem_whereEq m (amax m) r c).2 ⟨row, hr, hc⟩
  rw [hempty] at hin
  exact absurd hin (List.not_mem_nil _)

/-- C7 (witness): on the mask `[[0, 5], [5, 0]]` the maximum 5 is attained at
the two antidiagonal pixels; the returned row location is the floor of the
exact median `1/2` of the tied rows `[0, 1]`. -/
theorem C7_witness :
    (roi_loc [[0, 5], [5, 0]]).1
      = Nat.floor (medianRat ((whereEq [[0, 5], [5, 0]]
          (amax [[0, 5], [5, 0]])).map Prod.fst)) :=
  (C7_roi_locations_median [[0, 5], [5, 0]] (by decide)).1.1

/-- C8: updating a dynamic-table property for a subset of row ids changes
only the supplied rows. Supplying any row id not in the id set of the table fails
with the `ValueError` and the table is returned unmodified; otherwise the
call succeeds, the id column is untouched, and every row whose id is not in
the supplied subset holds its prior value (existing column) or the stated
default (newly created column). -/
theorem C8_dynamic_property_frame_effect (t : DynTable) (rid : List ℤ)
    (name : String) (vals : List ℚ) (dv : ℚ) (hlen : rid.length = vals.length) :
    ((¬ ∀ i ∈ rid, i ∈ t.ids) →
      set_dynamic_table_property t rid name vals dv
        = (Except.error (PyErr.valueError
            "ids contains values outside the range of existing ids"), t))
    ∧ ((∀ i ∈ rid, i ∈ t.ids) →
        (set_dynamic_table_property t rid name vals dv).1 = Except.ok ()
        ∧ (set_dynamic_table_property t rid name vals dv).2.ids = t.ids
        ∧ ∀ j i, t.ids.get? j = some i → i ∉ rid →
            (getCol (set_dynamic_table_property t rid name vals dv).2 name).bind
                (fun col => col.get? j)
              = match getCol t name with
                | some col => col.get? j
                | none => some dv) := by
  constructor
  · intro hbad
    unfold set_dynamic_table_property
    rw [if_pos hbad]
  · intro hall
    have hnotbad : ¬ ¬ ∀ i ∈ rid, i ∈ t.ids := not_not_intro hall
    have hmiss : ∀ j i, t.ids.get? j = some i → i ∉ rid →
        ∀ p ∈ rid.zip vals, pyIndex t.ids p.1 ≠ j := by
      intro j i hj hni p hp hpj
      have hp1 : p.1 ∈ rid := List.mem_zip hp |>.1
      have hget := pyIndex_get? t.ids p.1 (hall p.1 hp1)
      rw [hpj, hj] at hget
      exact hni (Option.some.inj hget ▸ hp1)
    unfold set_dynamic_table_property
    rw [if_neg hnotbad, if_neg (by omega)]
    cases hcol : lookupCol t.cols name with
    | some col =>
        refine ⟨rfl, rfl, ?_⟩
        intro j i hj hni
        have hs := lookupCol_setColData t.cols name
          (applyUpdates t.ids col (rid.zip vals)) (by rw [hcol]; rfl)
        show (lookupCol (setColData t.cols name
            (applyUpdates t.ids col (rid.zip vals))) name).bind
            (fun c => c.get? j)
          = match lookupCol t.cols name with
            | some c => c.get? j
            | none => some dv
        rw [hs, hcol]
        show (applyUpdates t.ids col (rid.zip vals)).get? j = col.get? j
        exact applyUpdates_get?_untouched t.ids (rid.zip vals) j
          (hmiss j i hj hni) col
    | none =>
        refine ⟨rfl, rfl, ?_⟩
        intro j i hj hni
        have hap := lookupCol_append t.cols name
          (applyUpdates t.ids (List.replicate t.ids.length dv) (rid.zip vals))
          hcol
        show (lookupCol (t.cols ++ [(name,
            applyUpdates t.ids (List.replicate t.ids.length dv)
              (rid.zip vals))]) name).bind (fun c => c.get? j)
          = match lookupCol t.cols name with
            | some c => c.get? j
            | none => some dv
        rw [hap, hcol]
        show (applyUpdates t.ids (List.replicate t.ids.length dv)
          (rid.zip vals)).get? j = some dv
        rw [applyUpdates_get?_untouched t.ids (rid.zip vals) j
          (hmiss j i hj hni) (List.replicate t.ids.length dv)]
        have hjlt : j < t.ids.length := by
          by_contra hge
          rw [List.get?_eq_none.2 (by omega)] at hj
          cases hj
        exact get?_replicate_of_lt dv t.ids.length j hjlt

/-- C8 (witness): in a table with ids `[0, 1, 2]` and column
`score = [1, 2, 3]`, updating only row id 1 leaves row 0 at its prior value
1. -/
theorem C8_witness :
    (getCol (set_dynamic_table_property ⟨[0, 1, 2], [("score", [1, 2, 3])]⟩
        [1] "score" [9] 0).2 "score").bind (fun col => col.get? 0)
      = some 1 := by
  have h := (C8_dynamic_property_frame_effect
    ⟨[0, 1, 2], [("score", [1, 2, 3])]⟩ [1] "score" [9] 0 rfl).2 (by decide)
  have h2 := h.2.2 0 0 (by rfl) (by decide)
  exact h2.trans (by rfl)

/-- C3 (counterexample): against an existing container whose children hold
exactly one node named `MyDevice`, the device step does not reuse the
existing device — evaluating `len(_device_exist > 1)` compares the match
list with an int and raises `TypeError` — so the claimed
zero-create / one-reuse / many-ambiguity trichotomy fails at the device
step. -/
theorem C3_counterexample :
    deviceStep ⟨["MyDevice"], ["MyDevice"], [], [], []⟩ "MyDevice"
      = (Except.error (PyErr.typeError
          "gt not supported between instances of list and int"),
        ⟨["MyDevice"], ["MyDevice"], [], [], []⟩) := by
  rfl

/-- C3 (amended): for the optical-channel, imaging-plane, acquisition-series
and processing-module steps, zero name matches create the entity, exactly
one match reuses the existing entity without mutation, and several matches
fail before any mutation of that step with an error that does not name the
candidates; the device step instead raises `TypeError` whenever at least one
same-named child exists, and creates the device when none does. -/
theorem C3_merge_step_semantics (st : WState) (nm dn : String)
    (chs : List String) :
    ((nameMatches st.childNames dn = [] →
        deviceStep st dn
          = (Except.ok (), { st with devices := st.devices ++ [dn] }))
      ∧ (nameMatches st.childNames dn ≠ [] →
        deviceStep st dn
          = (Except.error (PyErr.typeError
              "gt not supported between instances of list and int"), st)))
    ∧ ((nameMatches st.childNames nm = [] →
        imagingPlaneStep st nm
          = (Except.ok (), { st with imagingPlanes := st.imagingPlanes ++ [nm] }))
      ∧ ((nameMatches st.childNames nm).length = 1 →
        imagingPlaneStep st nm = (Except.ok (), st))
      ∧ (2 ≤ (nameMatches st.childNames nm).length →
        imagingPlaneStep st nm
          = (Except.error (PyErr.exception
              "Multiple Imaging Planes exist, provide name of one"), st)))
    ∧ ((nameMatches st.childNames nm = [] →
        imageSeriesStep st nm
          = (Except.ok (), { st with acquisitions := st.acquisitions ++ [nm] }))
      ∧ ((nameMatches st.childNames nm).length = 1 →
        imageSeriesStep st nm = (Except.ok (), st))
      ∧ (2 ≤ (nameMatches st.childNames nm).length →
        imageSeriesStep st nm
          = (Except.error (PyErr.exception
              "Multiple Imaging Series exist, provide name of one"), st)))
    ∧ ((nameMatches st.childNames nm = [] →
        processingModuleStep st nm
          = (Except.ok (), { st with
              processingModules := st.processingModules ++ [nm] }))
      ∧ ((nameMatches st.childNames nm).length = 1 →
        processingModuleStep st nm = (Except.ok (), st))
      ∧ (2 ≤ (nameMatches st.childNames nm).length →
        processingModuleStep st nm
          = (Except.error (PyErr.exception
              "Multiple Ophys modules exist, provide name of one"), st)))
    ∧ (((nameMatches st.childNames nm).length = 1 →
        opticalChannelStep st nm chs
          = (Except.ok (chs.drop 1 ++ [nm]), st))
      ∧ (2 ≤ (nameMatches st.childNames nm).length →
        opticalChannelStep st nm chs
          = (Except.error (PyErr.exception
              "Multiple Optical Channels exist, provide name of one"), st))) := by
  have hlen : ∀ l : List ℕ, l ≠ [] → l.isEmpty = false := by
    intro l hl
    cases l with
    | nil => exact absurd rfl hl
    | cons x xs => rfl
  refine ⟨⟨?_, ?_⟩, ⟨?_, ?_, ?_⟩, ⟨?_, ?_, ?_⟩, ⟨?_, ?_, ?_⟩, ⟨?_, ?_⟩⟩ <;>
    intro h
  · simp [deviceStep, h]
  · simp [deviceStep, hlen _ h]
  · simp [imagingPlaneStep, h]
  · have hne : nameMatches st.childNames nm ≠ [] := by
      intro he; rw [he] at h; exact absurd h (by decide)
    simp [imagingPlaneStep, hlen _ hne, h]
  · have hne : nameMatches st.childNames nm ≠ [] := by
      intro he; rw [he] at h; exact absurd h (by decide)
    simp only [imagingPlaneStep, hlen _ hne, Bool.false_eq_true, if_false]
    rw [if_neg (by omega)]
  · simp [imageSeriesStep, h]
  · have hne : nameMatches st.childNames nm ≠ [] := by
      intro he; rw [he] at h; exact absurd h (by decide)
    simp [imageSeriesStep, hlen _ hne, h]
  · have hne : nameMatches st.childNames nm ≠ [] := by
      intro he; rw [he] at h; exact absurd h (by decide)
    simp only [imageSeriesStep, hlen _ hne, Bool.false_eq_true, if_false]
    rw [if_neg (by omega)]
  · simp [processingModuleStep, h]
  · have hne : nameMatches st.childNames nm ≠ [] := by
      intro he; rw [he] at h; exact absurd h (by decide)
    simp [processingModuleStep, hlen _ hne, h]
  · have hne : nameMatches st.childNames nm ≠ [] := by
      intro he; rw [he] at h; exact absurd h (by decide)
    simp only [processingModuleStep, hlen _ hne, Bool.false_eq_true, if_false]
    rw [if_neg (by omega)]
  · have hne : nameMatches st.childNames nm ≠ [] := by
      intro he; rw [he] at h; exact absurd h (by decide)
    simp [opticalChannelStep, hlen _ hne, h]
  · have hne : nameMatches st.childNames nm ≠ [] := by
      intro he; rw [he] at h; exact absurd h (by decide)
    simp only [opticalChannelStep, hlen _ hne, Bool.false_eq_true, if_false]
    rw [if_neg (by omega)]

/-- C3 (witness): against a container with exactly one child named
`MyPlane`, the imaging-plane step reuses the existing plane without
mutating the state. -/
theorem C3_witness :
    imagingPlaneStep ⟨["MyPlane"], [], ["MyPlane"], [], []⟩ "MyPlane"
      = (Except.ok (), ⟨["MyPlane"], [], ["MyPlane"], [], []⟩) :=
  (C3_merge_step_semantics ⟨["MyPlane"], [], ["MyPlane"], [], []⟩
    "MyPlane" "d" []).2.1.2.1 (by decide)

/-- C4 (counterexample): a container with one processing module and no
child named `PlaneSegmentation` makes the read path fail with the
accidental `NameError` from the unbound local `ps`, not with a raised
missing-data error, so the claim that the failure is a `MissingDataError`
is false as stated. -/
theorem C4_counterexample :
    readLookups ⟨1, []⟩ = Except.error (PyErr.nameError "name ps is not defined")
    ∧ isRaisedError (readLookups ⟨1, []⟩) = false := by
  constructor
  · rfl
  · rfl

/-- C4 (amended): on the read path of a container with a processing module:
absence of any child named `PlaneSegmentation` causes a hard failure via
the `NameError` from the unbound local `ps` (after a printed warning), not
a raised missing-data error; absence of any `RoiResponseSeries` child
causes a hard failure with the raised error; absence of any `ImagingPlane`
child does not fail but yields `channel_names = None`, while presence
yields the optical channel name lists. -/
theorem C4_read_path_failures (c : NwbContainer)
    (hmod : c.processingCount ≠ 0) :
    ((∀ ch ∈ c.children, ch.name ≠ "PlaneSegmentation") →
      readLookups c = Except.error (PyErr.nameError "name ps is not defined")
      ∧ isRaisedError (readLookups c) = false)
    ∧ ((∃ ch ∈ c.children, ch.name = "PlaneSegmentation") →
       (∀ ch ∈ c.children, ch.type ≠ "RoiResponseSeries") →
      readLookups c = Except.error (PyErr.exception "no ROI response series found"))
    ∧ ((∃ ch ∈ c.children, ch.name = "PlaneSegmentation") →
       (∃ ch ∈ c.children, ch.type = "RoiResponseSeries") →
       (∀ ch ∈ c.children, ch.type ≠ "ImagingPlane") →
      readLookups c = Except.ok none)
    ∧ ((∃ ch ∈ c.children, ch.name = "PlaneSegmentation") →
       (∃ ch ∈ c.children, ch.type = "RoiResponseSeries") →
       (∃ ch ∈ c.children, ch.type = "ImagingPlane") →
      readLookups c
        = Except.ok (some ((c.children.filter
            (fun ch => ch.type = "ImagingPlane")).map
            (fun ch => ch.opticalChannelNames)))) := by
  have hps : ∀ (p : NwbChild → Prop) [DecidablePred p],
      (∀ ch ∈ c.children, ¬ p ch) →
        c.children.any (fun ch => decide (p ch)) = false := by
    intro p hd hnone
    rw [List.any_eq_false]
    intro ch hch
    simpa using hnone ch hch
  have hpt : ∀ (p : NwbChild → Prop) [DecidablePred p],
      (∃ ch ∈ c.children, p ch) →
        c.children.any (fun ch => decide (p ch)) = true := by
    intro p hd hsome
    rw [List.any_eq_true]
    rcases hsome with ⟨ch, hch, hp⟩
    exact ⟨ch, hch, by simpa using hp⟩
  refine ⟨?_, ?_, ?_, ?_⟩
  · intro hnops
    have h1 := hps (fun ch => ch.name = "PlaneSegmentation") hnops
    constructor
    · unfold readLookups
      rw [if_neg hmod, if_pos (by rw [h1]; decide)]
    · unfold readLookups
      rw [if_neg hmod, if_pos (by rw [h1]; decide)]
      rfl
  · intro hsomeps hnorrs
    have h1 := hpt (fun ch => ch.name = "PlaneSegmentation") hsomeps
    have h2 := hps (fun ch => ch.type = "RoiResponseSeries") hnorrs
    unfold readLookups
    rw [if_neg hmod, if_neg (by rw [h1]; decide), if_pos (by rw [h2]; decide)]
  · intro hsomeps hsomerrs hnoip
    have h1 := hpt (fun ch => ch.name = "PlaneSegmentation") hsomeps
    have h2 := hpt (fun ch => ch.type = "RoiResponseSeries") hsomerrs
    have h3 : c.children.filter (fun ch => decide (ch.type = "ImagingPlane")) = [] := by
      rw [List.filter_eq_nil]
      intro ch hch
      simpa using hnoip ch hch
    unfold readLookups
    rw [if_neg hmod, if_neg (by rw [h1]; decide), if_neg (by rw [h2]; decide),
      if_pos (by rw [h3]; rfl)]
  · intro hsomeps hsomerrs hsomeip
    have h1 := hpt (fun ch => ch.name = "PlaneSegmentation") hsomeps
    have h2 := hpt (fun ch => ch.type = "RoiResponseSeries") hsomerrs
    have h3 : (c.children.filter (fun ch => decide (ch.type = "ImagingPlane"))).isEmpty = false := by
      rcases hsomeip with ⟨ch, hch, hip⟩
      have hmem : ch ∈ c.children.filter (fun ch => decide (ch.type = "ImagingPlane")) :=
        List.mem_filter.2 ⟨hch, by simpa using hip⟩
      cases hfil : c.children.filter (fun ch => decide (ch.type = "ImagingPlane")) with
      | nil => rw [hfil] at hmem; cases hmem
      | cons x xs => rfl
    unfold readLookups
    rw [if_neg hmod, if_neg (by rw [h1]; decide), if_neg (by rw [h2]; decide),
      if_neg (by rw [h3]; decide)]

/-- C4 (witness): a container holding a plane segmentation and a response
series but no imaging plane reads back with `channel_names = None`. -/
theorem C4_witness :
    readLookups ⟨1, [⟨"PlaneSegmentation", "PlaneSegmentation", []⟩,
        ⟨"NeuronTimeSeriesData", "RoiResponseSeries", []⟩]⟩
      = Except.ok none := by
  have h := C4_read_path_failures ⟨1, [⟨"PlaneSegmentation", "PlaneSegmentation", []⟩,
      ⟨"NeuronTimeSeriesData", "RoiResponseSeries", []⟩]⟩ (by decide)
  exact h.2.2.1 (by exact ⟨_, List.mem_cons_self _ _, rfl⟩)
    (by exact ⟨⟨"NeuronTimeSeriesData", "RoiResponseSeries", []⟩,
      List.mem_cons_of_mem _ (List.mem_cons_self _ _), rfl⟩)
    (by intro ch hch
        rcases List.mem_cons.1 hch with h1 | h1
        · rw [h1]; decide
        · rcases List.mem_cons.1 h1 with h2 | h2
          · rw [h2]; decide
          · cases h2)

/-- C1: evaluation of the trace round trip at the failing input — an
extractor with one ROI and two frames. The writer stores the traces
transposed (frames by ROIs) while the reader assigns them back
untransposed, so the read-back extractor reports 1 frame where the
original reports 2, and the conformance comparison fails instead of
reporting equality. -/
theorem C1_roundtrip_not_equal :
    get_num_framesS (read_back (write_nwb_fresh ⟨[0], [[1, 2]], [], 1⟩)) = 1
    ∧ get_num_framesS ⟨[0], [[1, 2]], [], 1⟩ = 2
    ∧ checkSegmentationsEqualCore ⟨[0], [[1, 2]], [], 1⟩
        (read_back (write_nwb_fresh ⟨[0], [[1, 2]], [], 1⟩)) = false := by
  refine ⟨rfl, rfl, rfl⟩

/-- C9: for all dimension values and axis assignments, a valid axis
permutation constructs successfully and `build_video_shape(n)` is the
4-tuple holding `n` at the frame axis and rows, columns, channels at their
axis positions, with `number_of_pixels_per_frame` equal to their product
independent of the permutation; a non-permutation always fails with the
configuration error identifying the bad axis tuple. -/
theorem C9_video_structure_shape (r c nc ra ca na fa n : ℕ) :
    (validAxes ra ca na fa →
      mkVideoStructure r c nc ra ca na fa
          = Except.ok ⟨r, c, nc, ra, ca, na, fa⟩
        ∧ (build_video_shape ⟨r, c, nc, ra, ca, na, fa⟩ n).length = 4
        ∧ (build_video_shape ⟨r, c, nc, ra, ca, na, fa⟩ n).get? fa = some n
        ∧ (build_video_shape ⟨r, c, nc, ra, ca, na, fa⟩ n).get? ra = some r
        ∧ (build_video_shape ⟨r, c, nc, ra, ca, na, fa⟩ n).get? ca = some c
        ∧ (build_video_shape ⟨r, c, nc, ra, ca, na, fa⟩ n).get? na = some nc
        ∧ number_of_pixels_per_frame ⟨r, c, nc, ra, ca, na, fa⟩ = r * c * nc)
    ∧ (¬ validAxes ra ca na fa →
      mkVideoStructure r c nc ra ca na fa
        = Except.error (PyErr.valueError ("Invalid structure: "
            ++ toString [ra, ca, na, fa]
            ++ " each property axis should be unique value between 0 and 3 inclusive"))) := by
  constructor
  · intro hv
    obtain ⟨hnd, hbound⟩ := hv
    have hra : ra < 4 := hbound ra (by simp)
    have hca : ca < 4 := hbound ca (by simp)
    have hna : na < 4 := hbound na (by simp)
    have hfa : fa < 4 := hbound fa (by simp)
    have hd : ra ≠ ca ∧ ra ≠ na ∧ ra ≠ fa ∧ ca ≠ na ∧ ca ≠ fa ∧ na ≠ fa := by
      simp only [List.nodup_cons, List.mem_cons, List.mem_singleton,
        List.not_mem_nil, or_false, not_or, List.nodup_nil, and_true] at hnd
      tauto
    have hmap : ∀ i, i < 4 →
        (build_video_shape ⟨r, c, nc, ra, ca, na, fa⟩ n).get? i
          = some (if i = fa then n else if i = ra then r
              else if i = ca then c else nc) := by
      intro i hi
      unfold build_video_shape
      rw [List.get?_map, List.get?_range hi]
      rfl
    refine ⟨?_, ?_, ?_, ?_, ?_, ?_, rfl⟩
    · unfold mkVideoStructure
      rw [if_pos ⟨hnd, hbound⟩]
    · unfold build_video_shape
      rw [List.length_map, List.length_range]
    · rw [hmap fa hfa, if_pos rfl]
    · rw [hmap ra hra, if_neg hd.2.2.1, if_pos rfl]
    · rw [hmap ca hca, if_neg hd.2.2.2.2.1, if_neg (fun h => hd.1 h.symm),
        if_pos rfl]
    · rw [hmap na hna, if_neg hd.2.2.2.2.2, if_neg (fun h => hd.2.1 h.symm),
        if_neg (fun h => hd.2.2.2.1 h.symm)]
  · intro hv
    unfold mkVideoStructure
    rw [if_neg hv]

/-- C9 (witness): the axis tuple `(1, 2, 3, 10)` with the frame axis out of
range fails with the configuration error naming the tuple, while the valid
permutation `(0, 1, 2, 3)` would construct. -/
theorem C9_witness :
    mkVideoStructure 10 5 3 1 2 3 10
      = Except.error (PyErr.valueError ("Invalid structure: "
          ++ toString [1, 2, 3, 10]
          ++ " each property axis should be unique value between 0 and 3 inclusive")) :=
  (C9_video_structure_shape 10 5 3 1 2 3 10 20).2 (by decide)

end RoiExtractors
